import Mathlib

/-!
# Ticket Lifecycle & Audit Engine — verification development

Shallow embedding of the trouble-ticket server's handlers
(`src/server/src/handlers/*.ts` and the concatenated source parts), over an
explicit database state.  Timestamps are modelled as `Nat` epoch milliseconds
(the deployment clock is UTC per the spec, so JavaScript's
`setHours(getHours() + h)` and `getTime() + h*3600000` both add a fixed
duration of `h * 3600000` ms).  `Date.prototype.toISOString` is modelled by an
injective serialization of the epoch-millisecond value.  Database statements
(`db.update(...).execute()`, `db.insert(...).execute()`) are modelled as an
explicit list of `Write`s applied sequentially to the state: the handlers run
them as separate sequential statements with no enclosing transaction, so a
mid-operation failure leaves a prefix of the writes applied.  JavaScript
errors thrown by the handlers are mapped to the spec's error taxonomy
(`NotFound`, `InvalidTransition`, `MissingRequiredField`, `InvalidReference`)
by their messages; a thrown error occurs before any write of the operation
has been issued, so an error result leaves the database unchanged.
-/

inductive TicketStatus where
  | open_ | pending | in_progress | resolved | closed
  deriving Repr, DecidableEq

/-- The pg enum tag of a status, as stored in `tickets.status` and in
stringified history values. -/
def TicketStatus.tag : TicketStatus → String
  | .open_ => "open"
  | .pending => "pending"
  | .in_progress => "in_progress"
  | .resolved => "resolved"
  | .closed => "closed"

inductive TicketPriority where
  | low | medium | high | critical
  deriving Repr, DecidableEq

inductive UserRole where
  | admin | manager | technician | customer
  deriving Repr, DecidableEq

/-- Row of `tickets` (schema in the drizzle `ticketsTable`). -/
structure Ticket where
  id : Nat
  ticket_number : String
  title : String
  description : String
  status : TicketStatus
  priority : TicketPriority
  customer_id : Nat
  assigned_to : Option Nat
  created_by : Nat
  case_id : Option Nat
  pending_reason_id : Option Nat
  closing_reason_id : Option Nat
  scheduled_date : Option Nat
  sla_due_date : Nat
  resolved_at : Option Nat
  closed_at : Option Nat
  created_at : Nat
  updated_at : Nat
  deriving Repr, DecidableEq

/-- Row of `ticket_history` (the audit trail).  The row's own `id` and
`created_at` are database defaults, irrelevant to the claims, and omitted. -/
structure TicketHistory where
  ticket_id : Nat
  changed_by : Nat
  field_name : String
  old_value : Option String
  new_value : Option String
  change_reason : Option String
  deriving Repr, DecidableEq

/-- Row of `customers` (only the fields the handlers read). -/
structure Customer where
  id : Nat
  sla_hours : Nat
  is_active : Bool
  deriving Repr, DecidableEq

/-- Row of `users` (only the fields the handlers read). -/
structure User where
  id : Nat
  role : UserRole
  group_id : Option Nat
  is_active : Bool
  deriving Repr, DecidableEq

/-- The database state visible to the handlers. -/
structure DB where
  tickets : List Ticket
  history : List TicketHistory
  customers : List Customer
  users : List User
  deriving Repr, DecidableEq

/-- `select().from(ticketsTable).where(eq(ticketsTable.id, i))`, first row. -/
def findTicket (db : DB) (i : Nat) : Option Ticket :=
  db.tickets.find? (fun t => t.id == i)

/-- `select().from(customersTable).where(eq(customersTable.id, i))`, first row. -/
def findCustomer (db : DB) (i : Nat) : Option Customer :=
  db.customers.find? (fun c => c.id == i)

/-- `select().from(usersTable).where(eq(usersTable.id, i))`, first row. -/
def findUser (db : DB) (i : Nat) : Option User :=
  db.users.find? (fun u => u.id == i)

/-- JavaScript truthiness of a nullable number (`null` and `0` are falsy). -/
def truthyN : Option Nat → Bool
  | none => false
  | some n => n != 0

/-- JavaScript `s || d` on a nullable string (`null` and `""` are falsy). -/
def orDefault (s : Option String) (d : String) : String :=
  match s with
  | none => d
  | some s => if s = "" then d else s

/-- JavaScript `n || d` on a nullable number (`null` and `0` are falsy). -/
def orNum (n : Option Nat) (d : Nat) : Nat :=
  match n with
  | none => d
  | some n => if n = 0 then d else n

/-- Stand-in for `Date.prototype.toISOString`: an injective rendering of the
epoch-millisecond instant (the ISO-8601 text is determined by the instant). -/
def isoString (ms : Nat) : String := "1970ms+" ++ toString ms

/-- Spec error taxonomy for the errors the handlers throw (§7 of the spec):
`notFound` for the "not found" messages, `invalidTransition` for the status
checks, `missingRequiredField` for the pending-reason check,
`invalidReference` for assignment to an inactive user. -/
inductive Err where
  | notFound | invalidTransition | missingRequiredField | invalidReference
  deriving Repr, DecidableEq

/-- One database write statement issued by a handler.  Each `.execute()` on an
update or insert is one `Write`; a multi-row `values([...])` insert is a
single `insHist` with several rows. -/
inductive Write where
  | updTicket (t : Ticket)
  | insTicket (t : Ticket)
  | insHist (rows : List TicketHistory)
  deriving Repr, DecidableEq

/-- `update(ticketsTable).set(...).where(eq(id, u.id))`: replace the row with
the matching id. -/
def updateTickets (l : List Ticket) (u : Ticket) : List Ticket :=
  l.map (fun x => if x.id = u.id then u else x)

def applyWrite (db : DB) : Write → DB
  | .updTicket u => { db with tickets := updateTickets db.tickets u }
  | .insTicket t => { db with tickets := db.tickets ++ [t] }
  | .insHist rows => { db with history := db.history ++ rows }

/-- Sequential execution of a handler's write statements. -/
def applyWrites (db : DB) (ws : List Write) : DB :=
  ws.foldl applyWrite db

/-- All history rows inserted by a list of writes, in insertion order. -/
def histOf : List Write → List TicketHistory
  | [] => []
  | .insHist rows :: ws => rows ++ histOf ws
  | _ :: ws => histOf ws

/-! ## Handler inputs (zod schemas in `schema.ts`) -/

structure CreateTicketInput where
  title : String
  description : String
  priority : TicketPriority
  customer_id : Nat
  assigned_to : Option Nat
  case_id : Option Nat
  scheduled_date : Option Nat
  deriving Repr, DecidableEq

structure UpdateTicketStatusInput where
  ticket_id : Nat
  status : TicketStatus
  reason_id : Option Nat
  change_reason : Option String
  deriving Repr, DecidableEq

structure ScheduleTicketInput where
  ticket_id : Nat
  scheduled_date : Nat
  change_reason : Option String
  deriving Repr, DecidableEq

structure AssignTicketInput where
  ticket_id : Nat
  assigned_to : Option Nat
  change_reason : Option String
  deriving Repr, DecidableEq

/-! ## createTicket (`handlers/create_ticket.ts`)

The generated `ticket_number` (built from `Date.now()` and `Math.random()`)
and the serial `id` assigned by the insert are nondeterministic inputs of the
model. -/

/-- The row inserted by `createTicket`.  `sla_due_date` is
`slaDate.setHours(slaDate.getHours() + customer.sla_hours)` on a fresh
`new Date()`: under the UTC deployment clock this is fixed-duration addition
of `sla_hours * 3600000` ms to `now`. -/
def createdTicket (i : CreateTicketInput) (c : Customer) (now newId : Nat)
    (ticketNumber : String) : Ticket :=
  { id := newId
    ticket_number := ticketNumber
    title := i.title
    description := i.description
    status := .open_
    priority := i.priority
    customer_id := i.customer_id
    assigned_to := i.assigned_to
    created_by := 1
    case_id := i.case_id
    pending_reason_id := none
    closing_reason_id := none
    scheduled_date := i.scheduled_date
    sla_due_date := now + c.sla_hours * 3600000
    resolved_at := none
    closed_at := none
    created_at := now
    updated_at := now }

def createTicket (db : DB) (i : CreateTicketInput) (now newId : Nat)
    (ticketNumber : String) : Except Err (List Write × Ticket) :=
  match findCustomer db i.customer_id with
  | none => .error .notFound
  | some c =>
      let t := createdTicket i c now newId ticketNumber
      .ok ([.insTicket t], t)

/-! ## closeTicket (`handlers/close_ticket.ts`) -/

/-- The `update(...).set(...)` row of `closeTicket`: status `closed`,
`closing_reason_id := input.reason_id` (unconditionally, null included),
`closed_at := now`, `updated_at := now`.  `pending_reason_id` is not touched. -/
def closeUpd (t : Ticket) (i : UpdateTicketStatusInput) (now : Nat) : Ticket :=
  { t with status := .closed
           closing_reason_id := i.reason_id
           closed_at := some now
           updated_at := now }

/-- The history rows of `closeTicket`, one insert statement each: `status`
always, `closing_reason_id` only under
`input.reason_id && input.reason_id !== ticket.closing_reason_id`,
`closed_at` always.  `changed_by` falls back to the ticket's `created_by`;
`change_reason` is stored verbatim. -/
def closeRows (t : Ticket) (i : UpdateTicketStatusInput) (now : Nat) :
    List TicketHistory :=
  [{ ticket_id := i.ticket_id, changed_by := t.created_by,
     field_name := "status", old_value := some t.status.tag,
     new_value := some "closed", change_reason := i.change_reason }]
  ++ (if truthyN i.reason_id && (i.reason_id != t.closing_reason_id) then
        [{ ticket_id := i.ticket_id, changed_by := t.created_by,
           field_name := "closing_reason_id",
           old_value := t.closing_reason_id.map toString,
           new_value := i.reason_id.map toString,
           change_reason := i.change_reason }]
      else [])
  ++ [{ ticket_id := i.ticket_id, changed_by := t.created_by,
        field_name := "closed_at",
        old_value := t.closed_at.map isoString,
        new_value := some (isoString now),
        change_reason := i.change_reason }]

def closeTicket (db : DB) (i : UpdateTicketStatusInput) (now : Nat) :
    Except Err (List Write × Ticket) :=
  match findTicket db i.ticket_id with
  | none => .error .notFound
  | some t =>
      .ok (.updTicket (closeUpd t i now)
             :: (closeRows t i now).map (fun r => .insHist [r]),
           closeUpd t i now)

/-! ## resumeTicket (`handlers/resume_ticket.ts`) -/

/-- The `update(...).set(...)` row of `resumeTicket`. -/
def resumeUpd (t : Ticket) (c : Customer) (now : Nat) : Ticket :=
  { t with status := .in_progress
           pending_reason_id := none
           sla_due_date := now + c.sla_hours * 3600000
           updated_at := now }

/-- The history rows of `resumeTicket`, one insert statement each: `status`
and `sla_due_date` always, `pending_reason_id` clearing only when the prior
reason is truthy.  `changed_by` is the hard-coded default user 1; a null (or
empty) `change_reason` is replaced by per-row default text. -/
def resumeRows (t : Ticket) (c : Customer) (i : UpdateTicketStatusInput)
    (now : Nat) : List TicketHistory :=
  [{ ticket_id := i.ticket_id, changed_by := 1,
     field_name := "status", old_value := some "pending",
     new_value := some "in_progress",
     change_reason := some (orDefault i.change_reason
       "Ticket resumed from pending status") },
   { ticket_id := i.ticket_id, changed_by := 1,
     field_name := "sla_due_date",
     old_value := some (isoString t.sla_due_date),
     new_value := some (isoString (now + c.sla_hours * 3600000)),
     change_reason := some (orDefault i.change_reason
       "SLA recalculated when resuming ticket") }]
  ++ (if truthyN t.pending_reason_id then
        [{ ticket_id := i.ticket_id, changed_by := 1,
           field_name := "pending_reason_id",
           old_value := t.pending_reason_id.map toString,
           new_value := none,
           change_reason := some (orDefault i.change_reason
             "Pending reason cleared when resuming ticket") }]
      else [])

def resumeTicket (db : DB) (i : UpdateTicketStatusInput) (now : Nat) :
    Except Err (List Write × Ticket) :=
  match findTicket db i.ticket_id with
  | none => .error .notFound
  | some t =>
      if t.status ≠ .pending then .error .invalidTransition
      else
        match findCustomer db t.customer_id with
        | none => .error .notFound
        | some c =>
            .ok (.updTicket (resumeUpd t c now)
                   :: (resumeRows t c i now).map (fun r => .insHist [r]),
                 resumeUpd t c now)

/-! ## pendingTicket (real implementation concatenated into
`handlers/get_users.ts`; the `handlers/pending_ticket.ts` file is a
placeholder declaration) -/

def pendingUpd (t : Ticket) (i : UpdateTicketStatusInput) (now : Nat) : Ticket :=
  { t with status := i.status
           pending_reason_id := i.reason_id
           updated_at := now }

/-- The history entries of `pendingTicket`: a `status` row only if the status
actually changed, a `pending_reason_id` row only if the reason changed;
`change_reason` stored verbatim; all entries in one batch insert. -/
def pendingRows (t : Ticket) (i : UpdateTicketStatusInput) : List TicketHistory :=
  (if t.status ≠ i.status then
     [{ ticket_id := i.ticket_id, changed_by := 1,
        field_name := "status", old_value := some t.status.tag,
        new_value := some i.status.tag, change_reason := i.change_reason }]
   else [])
  ++ (if t.pending_reason_id ≠ i.reason_id then
        [{ ticket_id := i.ticket_id, changed_by := 1,
           field_name := "pending_reason_id",
           old_value := t.pending_reason_id.map toString,
           new_value := i.reason_id.map toString,
           change_reason := i.change_reason }]
      else [])

def pendingTicket (db : DB) (i : UpdateTicketStatusInput) (now : Nat) :
    Except Err (List Write × Ticket) :=
  match findTicket db i.ticket_id with
  | some t =>
      if ([TicketStatus.open_, .in_progress, .resolved, .pending].contains
            t.status) = false then
        .error .invalidTransition
      else if i.status = .pending ∧ ¬ truthyN i.reason_id then
        .error .missingRequiredField
      else
        .ok (.updTicket (pendingUpd t i now)
               :: (if (pendingRows t i).isEmpty then []
                   else [.insHist (pendingRows t i)]),
             pendingUpd t i now)
  | none => .error .notFound

/-! ## assignTicket (concatenated into `handlers/create_ticket.ts`) -/

def assignUpd (t : Ticket) (i : AssignTicketInput) (now : Nat) : Ticket :=
  { t with assigned_to := i.assigned_to, updated_at := now }

/-- The single history row of `assignTicket`: `changed_by` is
`input.assigned_to || 1`; a null (or empty) `change_reason` is replaced by
the default text. -/
def assignRow (t : Ticket) (i : AssignTicketInput) : TicketHistory :=
  { ticket_id := i.ticket_id
    changed_by := orNum i.assigned_to 1
    field_name := "assigned_to"
    old_value := t.assigned_to.map toString
    new_value := i.assigned_to.map toString
    change_reason := some (orDefault i.change_reason
      "Ticket assignment updated") }

def assignTicket (db : DB) (i : AssignTicketInput) (now : Nat) :
    Except Err (List Write × Ticket) :=
  match findTicket db i.ticket_id with
  | none => .error .notFound
  | some t =>
      match i.assigned_to with
      | some uid =>
          match findUser db uid with
          | none => .error .notFound
          | some u =>
              if u.is_active = false then .error .invalidReference
              else .ok ([.updTicket (assignUpd t i now),
                         .insHist [assignRow t i]], assignUpd t i now)
      | none =>
          .ok ([.updTicket (assignUpd t i now),
                .insHist [assignRow t i]], assignUpd t i now)

/-! ## scheduleTicket (`handlers/schedule_ticket.ts`) -/

def scheduleUpd (t : Ticket) (i : ScheduleTicketInput) (now : Nat) : Ticket :=
  { t with scheduled_date := some i.scheduled_date, updated_at := now }

def scheduleRow (t : Ticket) (i : ScheduleTicketInput) : TicketHistory :=
  { ticket_id := i.ticket_id
    changed_by := 1
    field_name := "scheduled_date"
    old_value := t.scheduled_date.map isoString
    new_value := some (isoString i.scheduled_date)
    change_reason := i.change_reason }

def scheduleTicket (db : DB) (i : ScheduleTicketInput) (now : Nat) :
    Except Err (List Write × Ticket) :=
  match findTicket db i.ticket_id with
  | none => .error .notFound
  | some t =>
      .ok ([.updTicket (scheduleUpd t i now), .insHist [scheduleRow t i]],
           scheduleUpd t i now)

/-! ## Whole-operation runs (all writes applied, as on the success path) -/

def runOf (db : DB) : Except Err (List Write × Ticket) →
    Except Err (DB × Ticket)
  | .error e => .error e
  | .ok (ws, t) => .ok (applyWrites db ws, t)

def runCreate (db : DB) (i : CreateTicketInput) (now newId : Nat)
    (ticketNumber : String) : Except Err (DB × Ticket) :=
  runOf db (createTicket db i now newId ticketNumber)

def runClose (db : DB) (i : UpdateTicketStatusInput) (now : Nat) :
    Except Err (DB × Ticket) :=
  runOf db (closeTicket db i now)

def runResume (db : DB) (i : UpdateTicketStatusInput) (now : Nat) :
    Except Err (DB × Ticket) :=
  runOf db (resumeTicket db i now)

def runPending (db : DB) (i : UpdateTicketStatusInput) (now : Nat) :
    Except Err (DB × Ticket) :=
  runOf db (pendingTicket db i now)

def runAssign (db : DB) (i : AssignTicketInput) (now : Nat) :
    Except Err (DB × Ticket) :=
  runOf db (assignTicket db i now)

def runSchedule (db : DB) (i : ScheduleTicketInput) (now : Nat) :
    Except Err (DB × Ticket) :=
  runOf db (scheduleTicket db i now)

/-! ## Listing endpoints -/

/-- `getMyTickets` (`handlers/get_my_tickets.ts`): tickets where the user is
assigned **or** is the creator, ordered by `created_at` descending. -/
def getMyTickets (db : DB) (userId : Nat) : List Ticket :=
  (db.tickets.filter
      (fun t => t.assigned_to == some userId || t.created_by == userId)
    ).mergeSort (fun a b => b.created_at ≤ a.created_at)

structure TicketDashboardFilters where
  status : Option TicketStatus
  priority : Option TicketPriority
  assigned_to : Option Nat
  customer_id : Option Nat
  date_from : Option Nat
  date_to : Option Nat
  deriving Repr, DecidableEq

/-- The conjunction of filter conditions built by `getTickets`
(`src/unnamed/part_003`); `status`/`priority`/`customer_id` are gated by JS
truthiness, `assigned_to` by `!== undefined`, the dates by presence. -/
def matchesFilters (f : TicketDashboardFilters) (t : Ticket) : Bool :=
  (match f.status with | none => true | some s => t.status == s)
  && (match f.priority with | none => true | some p => t.priority == p)
  && (match f.assigned_to with | none => true | some a => t.assigned_to == some a)
  && (match f.customer_id with
      | none => true
      | some c => if c = 0 then true else t.customer_id == c)
  && (match f.date_from with | none => true | some d => d ≤ t.created_at)
  && (match f.date_to with | none => true | some d => t.created_at ≤ d)

/-- `getTickets` (`src/unnamed/part_003`): all tickets matching the optional
filters, ordered by `created_at` descending.  No visibility predicate of any
kind is applied. -/
def getTickets (db : DB) (f : Option TicketDashboardFilters) : List Ticket :=
  (db.tickets.filter
      (fun t => match f with | none => true | some f => matchesFilters f t)
    ).mergeSort (fun a b => b.created_at ≤ a.created_at)

/-! ## The data-model invariant of §3 of the spec -/

/-- `pending_reason_id` is non-null iff `status == pending`. -/
def pendingInv (t : Ticket) : Prop :=
  t.pending_reason_id ≠ none ↔ t.status = .pending

instance (t : Ticket) : Decidable (pendingInv t) := by
  unfold pendingInv; infer_instance

/-! ## Helper lemmas on write execution -/

theorem applyWrites_cons (db : DB) (w : Write) (ws : List Write) :
    applyWrites db (w :: ws) = applyWrites (applyWrite db w) ws := rfl

theorem applyWrites_hist_singletons :
    ∀ (rows : List TicketHistory) (db : DB),
      applyWrites db (rows.map (fun r => Write.insHist [r])) =
        { db with history := db.history ++ rows }
  | [], db => by simp [applyWrites]
  | r :: rs, db => by
      rw [List.map_cons, applyWrites_cons, applyWrites_hist_singletons rs]
      simp [applyWrite]

/-- Executing an update statement followed by one single-row history insert
per row yields the updated ticket table and the appended history. -/
theorem applyWrites_updThenRows (db : DB) (u : Ticket)
    (rows : List TicketHistory) :
    applyWrites db (.updTicket u :: rows.map (fun r => Write.insHist [r])) =
      { db with tickets := updateTickets db.tickets u,
                history := db.history ++ rows } := by
  rw [applyWrites_cons, applyWrites_hist_singletons]
  simp [applyWrite]

/-- Executing an update statement followed by one optional batched history
insert (`pendingTicket`'s pattern) has the same net effect. -/
theorem applyWrites_updThenBatch (db : DB) (u : Ticket)
    (rows : List TicketHistory) :
    applyWrites db
        (.updTicket u ::
          (if rows.isEmpty then [] else [Write.insHist rows])) =
      { db with tickets := updateTickets db.tickets u,
                history := db.history ++ rows } := by
  cases hr : rows.isEmpty
  · rw [if_neg (by simp [hr])]
    simp [applyWrites_cons, applyWrites, applyWrite]
  · have : rows = [] := List.isEmpty_iff.mp hr
    subst this
    simp [applyWrites_cons, applyWrites, applyWrite]

/-! ## Run-level characterizations of each handler -/

theorem runCreate_ok_inv {db : DB} {i : CreateTicketInput} {now newId : Nat}
    {num : String} {db' : DB} {t' : Ticket}
    (h : runCreate db i now newId num = .ok (db', t')) :
    ∃ c, findCustomer db i.customer_id = some c ∧
      t' = createdTicket i c now newId num ∧
      db' = { db with tickets := db.tickets ++ [createdTicket i c now newId num] } := by
  unfold runCreate createTicket at h
  cases hc : findCustomer db i.customer_id <;> simp only [hc] at h
  · exact absurd h (by simp [runOf])
  · rename_i c
    simp only [runOf, applyWrites, List.foldl, applyWrite, Except.ok.injEq,
      Prod.mk.injEq] at h
    exact ⟨c, rfl, h.2.symm, h.1.symm⟩

theorem runClose_ok_inv {db : DB} {i : UpdateTicketStatusInput} {now : Nat}
    {db' : DB} {t' : Ticket}
    (h : runClose db i now = .ok (db', t')) :
    ∃ t, findTicket db i.ticket_id = some t ∧
      t' = closeUpd t i now ∧
      db' = { db with tickets := updateTickets db.tickets (closeUpd t i now),
                      history := db.history ++ closeRows t i now } := by
  unfold runClose closeTicket at h
  cases hft : findTicket db i.ticket_id <;> simp only [hft] at h
  · exact absurd h (by simp [runOf])
  · rename_i t
    rw [show runOf db (Except.ok
          (Write.updTicket (closeUpd t i now)
            :: (closeRows t i now).map (fun r => Write.insHist [r]),
           closeUpd t i now)) =
        Except.ok (applyWrites db
          (Write.updTicket (closeUpd t i now)
            :: (closeRows t i now).map (fun r => Write.insHist [r])),
          closeUpd t i now) from rfl,
      applyWrites_updThenRows] at h
    simp only [Except.ok.injEq, Prod.mk.injEq] at h
    exact ⟨t, rfl, h.2.symm, h.1.symm⟩

theorem runClose_ok (db : DB) (i : UpdateTicketStatusInput) (now : Nat)
    (t : Ticket) (hft : findTicket db i.ticket_id = some t) :
    runClose db i now = .ok
      ({ db with tickets := updateTickets db.tickets (closeUpd t i now),
                 history := db.history ++ closeRows t i now },
       closeUpd t i now) := by
  unfold runClose closeTicket
  rw [hft]
  rw [show runOf db (Except.ok
        (Write.updTicket (closeUpd t i now)
          :: (closeRows t i now).map (fun r => Write.insHist [r]),
         closeUpd t i now)) =
      Except.ok (applyWrites db
        (Write.updTicket (closeUpd t i now)
          :: (closeRows t i now).map (fun r => Write.insHist [r])),
        closeUpd t i now) from rfl,
    applyWrites_updThenRows]

theorem runResume_ok (db : DB) (i : UpdateTicketStatusInput) (now : Nat)
    (t : Ticket) (c : Customer)
    (hft : findTicket db i.ticket_id = some t)
    (hp : t.status = .pending)
    (hc : findCustomer db t.customer_id = some c) :
    runResume db i now = .ok
      ({ db with tickets := updateTickets db.tickets (resumeUpd t c now),
                 history := db.history ++ resumeRows t c i now },
       resumeUpd t c now) := by
  have hw := applyWrites_updThenRows db (resumeUpd t c now) (resumeRows t c i now)
  simp [runResume, resumeTicket, hft, hp, hc, runOf, hw]

theorem runResume_ok_inv {db : DB} {i : UpdateTicketStatusInput} {now : Nat}
    {db' : DB} {t' : Ticket}
    (h : runResume db i now = .ok (db', t')) :
    ∃ t c, findTicket db i.ticket_id = some t ∧ t.status = .pending ∧
      findCustomer db t.customer_id = some c ∧
      t' = resumeUpd t c now ∧
      db' = { db with tickets := updateTickets db.tickets (resumeUpd t c now),
                      history := db.history ++ resumeRows t c i now } := by
  unfold runResume resumeTicket at h
  cases hft : findTicket db i.ticket_id <;> simp only [hft] at h
  · exact absurd h (by simp [runOf])
  · rename_i t
    by_cases hp : t.status = .pending
    · simp only [hp, ne_eq, not_true_eq_false, if_false, ite_false] at h
      cases hc : findCustomer db t.customer_id <;> simp only [hc] at h
      · exact absurd h (by simp [runOf])
      · rename_i c
        rw [show runOf db (Except.ok
              (Write.updTicket (resumeUpd t c now)
                :: (resumeRows t c i now).map (fun r => Write.insHist [r]),
               resumeUpd t c now)) =
            Except.ok (applyWrites db
              (Write.updTicket (resumeUpd t c now)
                :: (resumeRows t c i now).map (fun r => Write.insHist [r])),
              resumeUpd t c now) from rfl,
          applyWrites_updThenRows] at h
        simp only [Except.ok.injEq, Prod.mk.injEq] at h
        exact ⟨t, c, rfl, hp, hc, h.2.symm, h.1.symm⟩
    · exact absurd h (by simp [hp, runOf])

theorem runResume_invalidTransition (db : DB) (i : UpdateTicketStatusInput)
    (now : Nat) (t : Ticket)
    (hft : findTicket db i.ticket_id = some t)
    (hp : t.status ≠ .pending) :
    runResume db i now = .error .invalidTransition := by
  simp [runResume, resumeTicket, hft, hp, runOf]

theorem runPending_ok (db : DB) (i : UpdateTicketStatusInput) (now : Nat)
    (t : Ticket) (hft : findTicket db i.ticket_id = some t)
    (hallow : ([TicketStatus.open_, .in_progress, .resolved, .pending].contains
        t.status) = true)
    (hre : ¬ (i.status = .pending ∧ ¬ truthyN i.reason_id)) :
    runPending db i now = .ok
      ({ db with tickets := updateTickets db.tickets (pendingUpd t i now),
                 history := db.history ++ pendingRows t i },
       pendingUpd t i now) := by
  unfold runPending pendingTicket
  simp only [hft]
  rw [if_neg (by simp only [hallow]; decide), if_neg hre]
  rw [show runOf db (Except.ok
        (Write.updTicket (pendingUpd t i now) ::
           (if (pendingRows t i).isEmpty then []
            else [Write.insHist (pendingRows t i)]),
         pendingUpd t i now)) =
      Except.ok (applyWrites db
        (Write.updTicket (pendingUpd t i now) ::
           (if (pendingRows t i).isEmpty then []
            else [Write.insHist (pendingRows t i)])),
        pendingUpd t i now) from rfl,
    applyWrites_updThenBatch]

theorem runPending_missingRequiredField (db : DB)
    (i : UpdateTicketStatusInput) (now : Nat) (t : Ticket)
    (hft : findTicket db i.ticket_id = some t)
    (hallow : ([TicketStatus.open_, .in_progress, .resolved, .pending].contains
        t.status) = true)
    (hs : i.status = .pending) (hr : i.reason_id = none) :
    runPending db i now = .error .missingRequiredField := by
  unfold runPending pendingTicket
  simp only [hft]
  rw [if_neg (by simp only [hallow]; decide),
    if_pos ⟨hs, by simp [hr, truthyN]⟩]
  rfl

theorem runPending_ok_inv {db : DB} {i : UpdateTicketStatusInput} {now : Nat}
    {db' : DB} {t' : Ticket}
    (h : runPending db i now = .ok (db', t')) :
    ∃ t, findTicket db i.ticket_id = some t ∧
      ¬ (i.status = .pending ∧ ¬ truthyN i.reason_id) ∧
      t' = pendingUpd t i now ∧
      db' = { db with tickets := updateTickets db.tickets (pendingUpd t i now),
                      history := db.history ++ pendingRows t i } := by
  unfold runPending pendingTicket at h
  cases hft : findTicket db i.ticket_id <;> simp only [hft] at h
  · exact absurd h (by simp [runOf])
  · rename_i t
    by_cases hallow : ([TicketStatus.open_, .in_progress, .resolved,
        .pending].contains t.status) = true
    · rw [if_neg (by simp only [hallow]; decide)] at h
      by_cases hre : i.status = .pending ∧ ¬ truthyN i.reason_id
      · rw [if_pos hre] at h
        exact absurd h (by simp [runOf])
      · rw [if_neg hre] at h
        rw [show runOf db (Except.ok
              (Write.updTicket (pendingUpd t i now) ::
                 (if (pendingRows t i).isEmpty then []
                  else [Write.insHist (pendingRows t i)]),
               pendingUpd t i now)) =
            Except.ok (applyWrites db
              (Write.updTicket (pendingUpd t i now) ::
                 (if (pendingRows t i).isEmpty then []
                  else [Write.insHist (pendingRows t i)])),
              pendingUpd t i now) from rfl,
          applyWrites_updThenBatch] at h
        simp only [Except.ok.injEq, Prod.mk.injEq] at h
        exact ⟨t, rfl, hre, h.2.symm, h.1.symm⟩
    · rw [if_pos (by simpa using hallow)] at h
      exact absurd h (by simp [runOf])

theorem runAssign_ok_inv {db : DB} {i : AssignTicketInput} {now : Nat}
    {db' : DB} {t' : Ticket}
    (h : runAssign db i now = .ok (db', t')) :
    ∃ t, findTicket db i.ticket_id = some t ∧ t' = assignUpd t i now ∧
      db' = { db with tickets := updateTickets db.tickets (assignUpd t i now),
                      history := db.history ++ [assignRow t i] } := by
  unfold runAssign assignTicket at h
  cases hft : findTicket db i.ticket_id <;> simp only [hft] at h
  · exact absurd h (by simp [runOf])
  · rename_i t
    have hfin : runOf db (Except.ok
          ([Write.updTicket (assignUpd t i now),
            Write.insHist [assignRow t i]], assignUpd t i now)) = .ok (db', t') →
        t' = assignUpd t i now ∧
        db' = { db with
                  tickets := updateTickets db.tickets (assignUpd t i now),
                  history := db.history ++ [assignRow t i] } := by
      intro hh
      rw [show runOf db (Except.ok
            ([Write.updTicket (assignUpd t i now),
              Write.insHist [assignRow t i]], assignUpd t i now)) =
          Except.ok (applyWrites db
            (Write.updTicket (assignUpd t i now) ::
              ([assignRow t i]).map (fun r => Write.insHist [r])),
            assignUpd t i now) from rfl,
        applyWrites_updThenRows] at hh
      simp only [Except.ok.injEq, Prod.mk.injEq] at hh
      exact ⟨hh.2.symm, hh.1.symm⟩
    cases hat : i.assigned_to <;> simp only [hat] at h
    · exact ⟨t, rfl, hfin h⟩
    · rename_i uid
      cases hu : findUser db uid <;> simp only [hu] at h
      · exact absurd h (by simp [runOf])
      · rename_i u
        cases hact : u.is_active <;> simp only [hact] at h
        · exact absurd h (by simp [runOf])
        · rw [if_neg (by simp)] at h
          exact ⟨t, rfl, hfin h⟩

theorem runSchedule_ok_inv {db : DB} {i : ScheduleTicketInput} {now : Nat}
    {db' : DB} {t' : Ticket}
    (h : runSchedule db i now = .ok (db', t')) :
    ∃ t, findTicket db i.ticket_id = some t ∧ t' = scheduleUpd t i now ∧
      db' = { db with
                tickets := updateTickets db.tickets (scheduleUpd t i now),
                history := db.history ++ [scheduleRow t i] } := by
  unfold runSchedule scheduleTicket at h
  cases hft : findTicket db i.ticket_id <;> simp only [hft] at h
  · exact absurd h (by simp [runOf])
  · rename_i t
    rw [show runOf db (Except.ok
          ([Write.updTicket (scheduleUpd t i now),
            Write.insHist [scheduleRow t i]], scheduleUpd t i now)) =
        Except.ok (applyWrites db
          (Write.updTicket (scheduleUpd t i now) ::
            ([scheduleRow t i]).map (fun r => Write.insHist [r])),
          scheduleUpd t i now) from rfl,
      applyWrites_updThenRows] at h
    simp only [Except.ok.injEq, Prod.mk.injEq] at h
    exact ⟨t, rfl, h.2.symm, h.1.symm⟩

/-- A `find?`-by-id lookup after the update statement returns the updated
row, provided the updated row keeps the id of the row originally found. -/
theorem find?_updateTickets :
    ∀ (l : List Ticket) (tid : Nat) (t u : Ticket),
      l.find? (fun x => x.id == tid) = some t → u.id = t.id →
      (updateTickets l u).find? (fun x => x.id == tid) = some u := by
  intro l tid t u h hid
  induction l with
  | nil => simp [List.find?] at h
  | cons a l ih =>
      rw [updateTickets, List.map_cons, List.find?_cons]
      rw [List.find?_cons] at h
      cases ha : (a.id == tid) <;> simp only [ha] at h
      · have htid := List.find?_some h
        have hau : ¬ (a.id = u.id) := by
          intro he
          rw [he, hid, htid] at ha
          exact Bool.noConfusion ha
        rw [if_neg hau]
        simp only [ha]
        show (updateTickets l u).find? (fun x => x.id == tid) = some u
        exact ih h
      · have hat : a = t := Option.some.inj h
        have h1 : a.id = u.id := by rw [hid, hat]
        rw [if_pos h1]
        have h2 : (u.id == tid) = true := by
          rw [hid, ← hat]
          exact ha
        simp only [h2]

/-- Among the history rows of one `closeTicket` call, exactly one has
`field_name = "status"`, and its `new_value` is `"closed"`. -/
theorem closeRows_status_filter (t : Ticket) (i : UpdateTicketStatusInput)
    (now : Nat) :
    ((closeRows t i now).filter (fun r => r.field_name == "status")).map
        (fun r => r.new_value) = [some "closed"] := by
  unfold closeRows
  cases hc : (truthyN i.reason_id && (i.reason_id != t.closing_reason_id)) <;>
    simp [hc]

/-! ## Concrete fixtures used by witnesses and counterexamples -/

def cust1 : Customer := { id := 1, sla_hours := 2, is_active := true }

def user1 : User := { id := 1, role := .technician, group_id := none,
                      is_active := true }

def user2 : User := { id := 2, role := .technician, group_id := none,
                      is_active := true }

def ticketOpen : Ticket :=
  { id := 1, ticket_number := "TKT-00000001-AAA", title := "printer down",
    description := "paper jam in tray 2", status := .open_,
    priority := .medium, customer_id := 1, assigned_to := none,
    created_by := 1, case_id := none, pending_reason_id := none,
    closing_reason_id := none, scheduled_date := none, sla_due_date := 100,
    resolved_at := none, closed_at := none, created_at := 10,
    updated_at := 10 }

def ticketPend : Ticket :=
  { ticketOpen with id := 2, status := .pending, pending_reason_id := some 5 }

def db0 : DB :=
  { tickets := [ticketOpen, ticketPend], history := [],
    customers := [cust1], users := [user1, user2] }

def inClose1 : UpdateTicketStatusInput :=
  { ticket_id := 1, status := .closed, reason_id := none,
    change_reason := none }

def inClose2 : UpdateTicketStatusInput :=
  { ticket_id := 2, status := .closed, reason_id := none,
    change_reason := none }

def inResume : UpdateTicketStatusInput :=
  { ticket_id := 2, status := .in_progress, reason_id := none,
    change_reason := none }

def inPend : UpdateTicketStatusInput :=
  { ticket_id := 1, status := .pending, reason_id := some 5,
    change_reason := none }

def inPendNull : UpdateTicketStatusInput :=
  { ticket_id := 1, status := .pending, reason_id := none,
    change_reason := none }

def inCreate : CreateTicketInput :=
  { title := "vpn outage", description := "site down", priority := .high,
    customer_id := 1, assigned_to := none, case_id := none,
    scheduled_date := none }

/-! ## Claims -/

/-- C1: the claim says every transition persists the ticket row and all its
history rows atomically (both or neither).  The code issues the ticket
UPDATE and each history INSERT as separate sequential statements with no
enclosing transaction, so this theorem exhibits the violating execution: on
an open ticket, `closeTicket` issues 3 statements; stopping after the first
(the UPDATE) leaves the ticket `closed` while zero of its history rows exist,
although the completed operation would append 2 rows. -/
theorem closeTicket_mid_failure_partial_write :
    (closeTicket db0 inClose1 50).toOption.map
        (fun p => ((applyWrites db0 (p.1.take 1)).tickets.map
                     (fun t => t.status),
                   (applyWrites db0 (p.1.take 1)).history,
                   p.1.length,
                   (applyWrites db0 p.1).history.length))
      = some ([.closed, .pending], [], 3, 2) := by decide

/-- C2 counterexample: the claim says every operation that moves a ticket out
of `pending` clears `pending_reason_id`.  Closing the pending ticket 2
(reason 5) yields `status = closed` with `pending_reason_id = some 5` — the
invariant `pending_reason_id ≠ null ↔ status = pending` is false on the
result. -/
theorem close_pending_keeps_pending_reason :
    (runClose db0 inClose2 60).toOption.map
        (fun p => (p.2.status, p.2.pending_reason_id,
                   decide (pendingInv p.2)))
      = some (.closed, some 5, false) := by decide

/-- C2 (amended): the invariant `pending_reason_id ≠ null ↔ status = pending`
is established by `create` and by `set_pending` (invoked with
`status = pending`), re-established by `resume`, and preserved by `assign`
and `schedule` (which change neither field); but `close` sets
`status = closed` while leaving `pending_reason_id` unchanged, so closing a
ticket directly from `pending` violates the invariant. -/
theorem pendingInv_preserved_except_close :
    (∀ db i now newId num db' t,
        runCreate db i now newId num = .ok (db', t) → pendingInv t)
  ∧ (∀ db i now db' t', i.status = .pending →
        runPending db i now = .ok (db', t') → pendingInv t')
  ∧ (∀ db i now db' t', runResume db i now = .ok (db', t') → pendingInv t')
  ∧ (∀ db i now db' t' t, findTicket db i.ticket_id = some t →
        runAssign db i now = .ok (db', t') →
        t'.pending_reason_id = t.pending_reason_id ∧ t'.status = t.status)
  ∧ (∀ db i now db' t' t, findTicket db i.ticket_id = some t →
        runSchedule db i now = .ok (db', t') →
        t'.pending_reason_id = t.pending_reason_id ∧ t'.status = t.status)
  ∧ (∀ db i now db' t' t, findTicket db i.ticket_id = some t →
        runClose db i now = .ok (db', t') →
        t'.status = .closed ∧ t'.pending_reason_id = t.pending_reason_id) := by
  refine ⟨?_, ?_, ?_, ?_, ?_, ?_⟩
  · intro db i now newId num db' t h
    obtain ⟨c, -, ht, -⟩ := runCreate_ok_inv h
    subst ht
    simp [pendingInv, createdTicket]
  · intro db i now db' t' hs h
    obtain ⟨t, -, hre, ht', -⟩ := runPending_ok_inv h
    subst ht'
    have htr : truthyN i.reason_id = true := by
      by_contra hx
      exact hre ⟨hs, by simpa using hx⟩
    cases hr : i.reason_id with
    | none => rw [hr] at htr; simp [truthyN] at htr
    | some r => simp [pendingInv, pendingUpd, hs, hr]
  · intro db i now db' t' h
    obtain ⟨t, c, -, -, -, ht', -⟩ := runResume_ok_inv h
    subst ht'
    simp [pendingInv, resumeUpd]
  · intro db i now db' t' t hft h
    obtain ⟨t0, hft0, ht', -⟩ := runAssign_ok_inv h
    have : t = t0 := Option.some.inj (hft.symm.trans hft0)
    subst this
    subst ht'
    exact ⟨rfl, rfl⟩
  · intro db i now db' t' t hft h
    obtain ⟨t0, hft0, ht', -⟩ := runSchedule_ok_inv h
    have : t = t0 := Option.some.inj (hft.symm.trans hft0)
    subst this
    subst ht'
    exact ⟨rfl, rfl⟩
  · intro db i now db' t' t hft h
    obtain ⟨t0, hft0, ht', -⟩ := runClose_ok_inv h
    have : t = t0 := Option.some.inj (hft.symm.trans hft0)
    subst this
    subst ht'
    exact ⟨rfl, rfl⟩

theorem pendingInv_preserved_except_close_witness :
    pendingInv (resumeUpd ticketPend cust1 70) :=
  pendingInv_preserved_except_close.2.2.1 db0 inResume 70
    ({ db0 with
        tickets := updateTickets db0.tickets (resumeUpd ticketPend cust1 70),
        history := db0.history ++ resumeRows ticketPend cust1 inResume 70 })
    (resumeUpd ticketPend cust1 70) rfl

/-- C3: for every customer with `sla_hours = h`, `create` executed at time
`now` yields a ticket with `status = open` and
`sla_due_date = now + h` hours of fixed duration (`h * 3600000` ms),
deterministically in `now` and `h` — independent of the generated ticket
number and assigned id. -/
theorem createTicket_sla_deterministic (db : DB) (i : CreateTicketInput)
    (now newId : Nat) (num : String) (c : Customer)
    (hc : findCustomer db i.customer_id = some c)
    (hpos : 0 < c.sla_hours) :
    (runCreate db i now newId num).toOption.map
        (fun p => (p.2.status, p.2.sla_due_date))
      = some (.open_, now + c.sla_hours * 3600000) := by
  simp [runCreate, createTicket, hc, runOf, createdTicket, Except.toOption]

theorem createTicket_sla_deterministic_witness :
    0 < cust1.sla_hours ∧
    (runCreate db0 inCreate 1000 3 "TKT-X").toOption.map
        (fun p => (p.2.status, p.2.sla_due_date))
      = some (.open_, 1000 + cust1.sla_hours * 3600000) :=
  ⟨by decide,
   createTicket_sla_deterministic db0 inCreate 1000 3 "TKT-X" cust1
     (by decide) (by decide)⟩

/-- C4: on a pending ticket, `resume` at time `now` sets
`status = in_progress`, clears `pending_reason_id`, recomputes
`sla_due_date = now + sla_hours` hours, and appends audit rows for `status`,
`sla_due_date`, and — exactly when a pending reason was previously set — the
`pending_reason_id` clearing; on a non-pending ticket it fails with
`InvalidTransition` (the check precedes every write, so nothing changes). -/
theorem resume_spec (db : DB) (i : UpdateTicketStatusInput) (now : Nat) :
    (∀ t c, findTicket db i.ticket_id = some t → t.status = .pending →
        findCustomer db t.customer_id = some c →
        (t.pending_reason_id = none ∨
          ∃ r, t.pending_reason_id = some r ∧ 0 < r) →
        ∃ db', runResume db i now = .ok (db', resumeUpd t c now) ∧
          (resumeUpd t c now).status = .in_progress ∧
          (resumeUpd t c now).pending_reason_id = none ∧
          (resumeUpd t c now).sla_due_date = now + c.sla_hours * 3600000 ∧
          db'.history = db.history ++ resumeRows t c i now ∧
          (resumeRows t c i now).map (fun r => r.field_name) =
            ["status", "sla_due_date"] ++
              (if t.pending_reason_id = none then []
               else ["pending_reason_id"]))
  ∧ (∀ t, findTicket db i.ticket_id = some t → t.status ≠ .pending →
        runResume db i now = .error .invalidTransition) := by
  constructor
  · intro t c hft hp hc hwf
    refine ⟨_, runResume_ok db i now t c hft hp hc, rfl, rfl, rfl, rfl, ?_⟩
    rcases hwf with hnone | ⟨r, hr, hrpos⟩
    · simp [resumeRows, hnone, truthyN]
    · have hr0 : (r != 0) = true := by
        simpa using Nat.pos_iff_ne_zero.mp hrpos
      simp [resumeRows, hr, truthyN, hr0]
  · intro t hft hp
    exact runResume_invalidTransition db i now t hft hp

theorem resume_spec_witness :
    (∃ db', runResume db0 inResume 80 =
        .ok (db', resumeUpd ticketPend cust1 80) ∧
      (resumeUpd ticketPend cust1 80).status = .in_progress ∧
      (resumeUpd ticketPend cust1 80).pending_reason_id = none ∧
      (resumeUpd ticketPend cust1 80).sla_due_date =
        80 + cust1.sla_hours * 3600000 ∧
      db'.history = db0.history ++ resumeRows ticketPend cust1 inResume 80 ∧
      (resumeRows ticketPend cust1 inResume 80).map (fun r => r.field_name) =
        ["status", "sla_due_date"] ++
          (if ticketPend.pending_reason_id = none then []
           else ["pending_reason_id"]))
  ∧ runResume db0 inClose1 80 = .error .invalidTransition :=
  ⟨(resume_spec db0 inResume 80).1 ticketPend cust1 (by decide) (by decide)
      (by decide) (Or.inr ⟨5, by decide, by decide⟩),
   (resume_spec db0 inClose1 80).2 ticketOpen (by decide) (by decide)⟩

/-- C6: closing the same ticket twice succeeds both times (state-level
idempotent: both results have `status = closed`) while each call appends its
own history, so the two calls append exactly two `status` rows, both with
`new_value = "closed"`. -/
theorem close_twice_two_status_rows (db : DB) (i1 i2 : UpdateTicketStatusInput)
    (n1 n2 tid : Nat) (t : Ticket)
    (h1 : i1.ticket_id = tid) (h2 : i2.ticket_id = tid)
    (hft : findTicket db tid = some t) :
    ∃ db1 db2,
      runClose db i1 n1 = .ok (db1, closeUpd t i1 n1) ∧
      runClose db1 i2 n2 = .ok (db2, closeUpd (closeUpd t i1 n1) i2 n2) ∧
      (closeUpd t i1 n1).status = .closed ∧
      (closeUpd (closeUpd t i1 n1) i2 n2).status = .closed ∧
      db2.history = db.history ++ closeRows t i1 n1 ++
        closeRows (closeUpd t i1 n1) i2 n2 ∧
      ((closeRows t i1 n1 ++ closeRows (closeUpd t i1 n1) i2 n2).filter
          (fun r => r.field_name == "status")).map (fun r => r.new_value)
        = [some "closed", some "closed"] := by
  have hft1 : findTicket db i1.ticket_id = some t := by rw [h1]; exact hft
  have e1 := runClose_ok db i1 n1 t hft1
  have hft2 : findTicket
      { db with tickets := updateTickets db.tickets (closeUpd t i1 n1),
                history := db.history ++ closeRows t i1 n1 } i2.ticket_id
      = some (closeUpd t i1 n1) := by
    show (updateTickets db.tickets (closeUpd t i1 n1)).find?
        (fun x => x.id == i2.ticket_id) = some (closeUpd t i1 n1)
    rw [h2]
    exact find?_updateTickets db.tickets tid t (closeUpd t i1 n1) hft rfl
  have e2 := runClose_ok _ i2 n2 (closeUpd t i1 n1) hft2
  refine ⟨_, _, e1, e2, rfl, rfl, ?_, ?_⟩
  · show (db.history ++ closeRows t i1 n1) ++
        closeRows (closeUpd t i1 n1) i2 n2 =
      db.history ++ closeRows t i1 n1 ++ closeRows (closeUpd t i1 n1) i2 n2
    rfl
  · rw [List.filter_append, List.map_append, closeRows_status_filter,
      closeRows_status_filter]
    rfl

theorem close_twice_two_status_rows_witness :
    ∃ db1 db2,
      runClose db0 inClose1 50 = .ok (db1, closeUpd ticketOpen inClose1 50) ∧
      runClose db1 inClose1 55 =
        .ok (db2, closeUpd (closeUpd ticketOpen inClose1 50) inClose1 55) ∧
      (closeUpd ticketOpen inClose1 50).status = .closed ∧
      (closeUpd (closeUpd ticketOpen inClose1 50) inClose1 55).status
        = .closed ∧
      db2.history = db0.history ++ closeRows ticketOpen inClose1 50 ++
        closeRows (closeUpd ticketOpen inClose1 50) inClose1 55 ∧
      ((closeRows ticketOpen inClose1 50 ++
          closeRows (closeUpd ticketOpen inClose1 50) inClose1 55).filter
          (fun r => r.field_name == "status")).map (fun r => r.new_value)
        = [some "closed", some "closed"] :=
  close_twice_two_status_rows db0 inClose1 inClose1 50 55 1 ticketOpen
    rfl rfl (by decide)

def ticketForeign : Ticket :=
  { ticketOpen with id := 3, assigned_to := some 2, created_by := 1 }

def dbVis : DB :=
  { tickets := [ticketForeign], history := [], customers := [cust1],
    users := [user1, user2] }

/-- C5 counterexample: user 1 is a technician with no group (so no "view
all" grant), yet `getMyTickets 1` returns ticket 3, which is assigned to
user 2 — the listing also returns tickets the actor merely created. -/
theorem getMyTickets_returns_foreign_assignment :
    findUser dbVis 1 = some user1 ∧ user1.role = .technician ∧
    user1.group_id = none ∧
    getMyTickets dbVis 1 = [ticketForeign] ∧
    ticketForeign.assigned_to = some 2 ∧
    ticketForeign.assigned_to ≠ some 1 := by
  refine ⟨by decide, by decide, by decide, ?_, by decide, by decide⟩
  show (dbVis.tickets.filter
      (fun t => t.assigned_to == some 1 || t.created_by == 1)).mergeSort
        (fun a b => b.created_at ≤ a.created_at) = [ticketForeign]
  rw [show dbVis.tickets.filter
      (fun t => t.assigned_to == some 1 || t.created_by == 1)
      = [ticketForeign] from by decide]
  exact List.mergeSort_singleton ticketForeign

/-- C5 (amended): `getMyTickets actor` returns exactly the tickets with
`assigned_to = actor` **or** `created_by = actor`, ordered by `created_at`
descending — so it can return tickets assigned to someone else whenever the
actor created them; and `getTickets` with no filters applies no visibility
predicate at all, returning every ticket. -/
theorem getMyTickets_characterization (db : DB) (userId : Nat) :
    (∀ t, t ∈ getMyTickets db userId ↔
        t ∈ db.tickets ∧
          (t.assigned_to = some userId ∨ t.created_by = userId))
  ∧ (getMyTickets db userId).Pairwise
      (fun a b => b.created_at ≤ a.created_at)
  ∧ (∀ t, t ∈ getTickets db none ↔ t ∈ db.tickets) := by
  refine ⟨?_, ?_, ?_⟩
  · intro t
    simp [getMyTickets, List.mem_filter]
  · have h := @List.sorted_mergeSort Ticket
      (fun a b => decide (b.created_at ≤ a.created_at))
      (fun a b c hab hbc => by
        simp only [decide_eq_true_eq] at hab hbc ⊢
        omega)
      (fun a b => by
        simp only [Bool.or_eq_true, decide_eq_true_eq]
        omega)
      (db.tickets.filter
        (fun t => t.assigned_to == some userId || t.created_by == userId))
    unfold getMyTickets
    exact List.Pairwise.imp (fun hab => by simpa using hab) h
  · intro t
    simp [getTickets, List.mem_filter]

/-- C7: `set_pending` with a (nonzero) `reason_id` on an open ticket with no
prior pending reason sets `status = pending`, `pending_reason_id` to the
given reason, and writes exactly two history rows — `status` and
`pending_reason_id`; `set_pending` with `reason_id = null` fails with
`MissingRequiredField`. -/
theorem set_pending_spec (db : DB) (i : UpdateTicketStatusInput) (now : Nat) :
    (∀ t r, findTicket db i.ticket_id = some t → t.status = .open_ →
        t.pending_reason_id = none → i.status = .pending →
        i.reason_id = some r → r ≠ 0 →
        ∃ db', runPending db i now = .ok (db', pendingUpd t i now) ∧
          (pendingUpd t i now).status = .pending ∧
          (pendingUpd t i now).pending_reason_id = some r ∧
          db'.history = db.history ++ pendingRows t i ∧
          (pendingRows t i).map (fun r => r.field_name) =
            ["status", "pending_reason_id"])
  ∧ (∀ t, findTicket db i.ticket_id = some t →
        ([TicketStatus.open_, .in_progress, .resolved, .pending].contains
            t.status) = true →
        i.status = .pending → i.reason_id = none →
        runPending db i now = .error .missingRequiredField) := by
  constructor
  · intro t r hft hopen hpnone hs hr hr0
    have hallow : ([TicketStatus.open_, .in_progress, .resolved,
        .pending].contains t.status) = true := by
      rw [hopen]; decide
    have hre : ¬ (i.status = .pending ∧ ¬ truthyN i.reason_id) := by
      rintro ⟨-, hnt⟩
      exact hnt (by simp [truthyN, hr, hr0])
    refine ⟨_, runPending_ok db i now t hft hallow hre, ?_, ?_, rfl, ?_⟩
    · simp [pendingUpd, hs]
    · simp [pendingUpd, hr]
    · have hne : t.status ≠ i.status := by rw [hopen, hs]; decide
      have hne2 : t.pending_reason_id ≠ i.reason_id := by
        rw [hpnone, hr]; simp
      simp [pendingRows, hne, hne2, hopen, hs]
  · intro t hft hallow hs hr
    exact runPending_missingRequiredField db i now t hft hallow hs hr

theorem set_pending_spec_witness :
    (∃ db', runPending db0 inPend 90 =
        .ok (db', pendingUpd ticketOpen inPend 90) ∧
      (pendingUpd ticketOpen inPend 90).status = .pending ∧
      (pendingUpd ticketOpen inPend 90).pending_reason_id = some 5 ∧
      db'.history = db0.history ++ pendingRows ticketOpen inPend ∧
      (pendingRows ticketOpen inPend).map (fun r => r.field_name) =
        ["status", "pending_reason_id"])
  ∧ runPending db0 inPendNull 90 = .error .missingRequiredField :=
  ⟨(set_pending_spec db0 inPend 90).1 ticketOpen 5 (by decide) (by decide)
      (by decide) rfl rfl (by decide),
   (set_pending_spec db0 inPendNull 90).2 ticketOpen (by decide) (by decide)
      rfl rfl⟩

/-- C8 counterexample: the claim says a null `change_reason` is persisted
verbatim (stored as null).  Resuming pending ticket 2 with
`change_reason = null` stores engine-generated default text in all three
history rows instead. -/
theorem resume_null_change_reason_replaced :
    inResume.change_reason = none ∧
    (runResume db0 inResume 80).toOption.map
        (fun p => p.1.history.map (fun r => r.change_reason))
      = some [some "Ticket resumed from pending status",
              some "SLA recalculated when resuming ticket",
              some "Pending reason cleared when resuming ticket"] := by
  decide

/-- C8 (amended): `close`, `set_pending` and `schedule` persist
`change_reason` verbatim in every history row they write (null stored as
null); `resume` and `assign` persist a non-null, non-empty `change_reason`
verbatim but replace a null one with per-row engine-default text. -/
theorem change_reason_policy :
    (∀ t i now r, r ∈ closeRows t i now →
        r.change_reason = i.change_reason)
  ∧ (∀ t i r, r ∈ pendingRows t i → r.change_reason = i.change_reason)
  ∧ (∀ t i, (scheduleRow t i).change_reason = i.change_reason)
  ∧ (∀ t c i now s, i.change_reason = some s → s ≠ "" →
        ∀ r ∈ resumeRows t c i now, r.change_reason = some s)
  ∧ (∀ t c i now, i.change_reason = none →
        (resumeRows t c i now).map (fun r => r.change_reason) =
          [some "Ticket resumed from pending status",
           some "SLA recalculated when resuming ticket"] ++
          (if truthyN t.pending_reason_id then
             [some "Pending reason cleared when resuming ticket"] else []))
  ∧ (∀ t i s, i.change_reason = some s → s ≠ "" →
        (assignRow t i).change_reason = some s)
  ∧ (∀ t i, i.change_reason = none →
        (assignRow t i).change_reason = some "Ticket assignment updated") := by
  refine ⟨?_, ?_, ?_, ?_, ?_, ?_, ?_⟩
  · intro t i now r hr
    unfold closeRows at hr
    simp only [List.mem_append, List.mem_singleton] at hr
    rcases hr with (h | h) | h
    · subst h; rfl
    · split at h
      · simp only [List.mem_singleton] at h; subst h; rfl
      · simp at h
    · subst h; rfl
  · intro t i r hr
    unfold pendingRows at hr
    simp only [List.mem_append] at hr
    rcases hr with h | h <;>
      (split at h
       · simp only [List.mem_singleton] at h; subst h; rfl
       · simp at h)
  · intro t i; rfl
  · intro t c i now s hs hne r hr
    unfold resumeRows at hr
    simp only [List.mem_append, List.mem_cons, List.mem_singleton,
      List.not_mem_nil, or_false] at hr
    rcases hr with (h | h) | h
    · subst h; simp [orDefault, hs, hne]
    · subst h; simp [orDefault, hs, hne]
    · split at h
      · simp only [List.mem_singleton] at h
        subst h; simp [orDefault, hs, hne]
      · simp at h
  · intro t c i now hnone
    unfold resumeRows
    cases htr : truthyN t.pending_reason_id <;> simp [hnone, orDefault, htr]
  · intro t i s hs hne
    unfold assignRow
    simp [orDefault, hs, hne]
  · intro t i hnone
    unfold assignRow
    simp [orDefault, hnone]

theorem change_reason_policy_witness :
    ({ ticket_id := 1, changed_by := 1, field_name := "status",
       old_value := some "open", new_value := some "closed",
       change_reason := none } : TicketHistory).change_reason
      = inClose1.change_reason :=
  change_reason_policy.1 ticketOpen inClose1 50 _ (by decide)

/-- C9: the ticket returned by `create` always has `created_by = 1` — the
handler hard-codes the default user id regardless of the caller's identity
and of every input field. -/
theorem createTicket_created_by_constant (db : DB) (i : CreateTicketInput)
    (now newId : Nat) (num : String) (c : Customer)
    (hc : findCustomer db i.customer_id = some c) :
    (runCreate db i now newId num).toOption.map (fun p => p.2.created_by)
      = some 1 := by
  simp [runCreate, createTicket, hc, runOf, createdTicket, Except.toOption]

theorem createTicket_created_by_constant_witness :
    (runCreate db0 inCreate 1000 3 "TKT-X").toOption.map
        (fun p => p.2.created_by) = some 1 :=
  createTicket_created_by_constant db0 inCreate 1000 3 "TKT-X" cust1
    (by decide)

/-- C10: no exposed operation ever sets `resolved_at`: `create` initializes
it to null, and `close`, `resume`, `assign`, `schedule` leave it unchanged
(`close` sets `closed_at = now` but not `resolved_at`). -/
theorem resolved_at_never_set :
    (∀ db i now newId num db' t,
        runCreate db i now newId num = .ok (db', t) → t.resolved_at = none)
  ∧ (∀ db i now db' t' t, findTicket db i.ticket_id = some t →
        runClose db i now = .ok (db', t') →
        t'.resolved_at = t.resolved_at ∧ t'.closed_at = some now)
  ∧ (∀ db i now db' t' t, findTicket db i.ticket_id = some t →
        runResume db i now = .ok (db', t') → t'.resolved_at = t.resolved_at)
  ∧ (∀ db i now db' t' t, findTicket db i.ticket_id = some t →
        runAssign db i now = .ok (db', t') → t'.resolved_at = t.resolved_at)
  ∧ (∀ db i now db' t' t, findTicket db i.ticket_id = some t →
        runSchedule db i now = .ok (db', t') →
        t'.resolved_at = t.resolved_at) := by
  refine ⟨?_, ?_, ?_, ?_, ?_⟩
  · intro db i now newId num db' t h
    obtain ⟨c, -, ht, -⟩ := runCreate_ok_inv h
    subst ht
    rfl
  · intro db i now db' t' t hft h
    obtain ⟨t0, hft0, ht', -⟩ := runClose_ok_inv h
    have : t = t0 := Option.some.inj (hft.symm.trans hft0)
    subst this
    subst ht'
    exact ⟨rfl, rfl⟩
  · intro db i now db' t' t hft h
    obtain ⟨t0, c, hft0, -, -, ht', -⟩ := runResume_ok_inv h
    have : t = t0 := Option.some.inj (hft.symm.trans hft0)
    subst this
    subst ht'
    rfl
  · intro db i now db' t' t hft h
    obtain ⟨t0, hft0, ht', -⟩ := runAssign_ok_inv h
    have : t = t0 := Option.some.inj (hft.symm.trans hft0)
    subst this
    subst ht'
    rfl
  · intro db i now db' t' t hft h
    obtain ⟨t0, hft0, ht', -⟩ := runSchedule_ok_inv h
    have : t = t0 := Option.some.inj (hft.symm.trans hft0)
    subst this
    subst ht'
    rfl

theorem resolved_at_never_set_witness :
    (closeUpd ticketOpen inClose1 50).resolved_at = ticketOpen.resolved_at ∧
    (closeUpd ticketOpen inClose1 50).closed_at = some 50 :=
  resolved_at_never_set.2.1 db0 inClose1 50
    ({ db0 with
        tickets := updateTickets db0.tickets (closeUpd ticketOpen inClose1 50),
        history := db0.history ++ closeRows ticketOpen inClose1 50 })
    (closeUpd ticketOpen inClose1 50) ticketOpen (by decide)
    (runClose_ok db0 inClose1 50 ticketOpen (by decide))
